import Mathlib

/-
Verification development for the AyurSutra server (src/server/server.js) and
its client authentication services (src/unnamed/part_001).  The Express app,
its Mongoose collections and the client localStorage cache are shallowly
embedded: collections are lists of records, Mongoose findOne/findOneAndUpdate
act on the first matching element, and request handlers are pure functions
from a database state (plus request data and the current clock) to a new
state and an HTTP status / response value.
-/

namespace AyurSutra

/-- Feedback subdocument of a therapy session (sessionSchema.feedback). -/
structure Feedback where
  wellness : Rat
  energy : Rat
  sleep : Rat
  comments : String
deriving DecidableEq

/-- Status enum of sessionSchema.status. -/
inductive SessionStatus
  | scheduled
  | inProgress
  | completed
  | cancelled
deriving DecidableEq

/-- One therapy session document (sessionSchema). -/
structure TherapySession where
  id : Nat
  userId : Nat
  practitionerId : Option Nat
  name : String
  ttype : String
  date : Int
  time : String
  duration : Nat
  status : SessionStatus
  progress : Rat
  feedback : Option Feedback
deriving DecidableEq

/-- One entry of progressSchema.wellnessScores. -/
structure WellnessScore where
  date : Int
  wellness : Rat
  energy : Rat
  sleep : Rat
deriving DecidableEq

/-- One progress document (progressSchema). -/
structure ProgressRecord where
  userId : Nat
  overallProgress : Rat
  completedSessions : Nat
  totalSessions : Nat
  nextMilestone : String
  wellnessScores : List WellnessScore
deriving DecidableEq

/-- One notification document (notificationSchema). -/
structure Notification where
  userId : Nat
  title : String
  message : String
  ntype : String
  priority : String
  read : Bool
deriving DecidableEq

/-- Wellness metrics snapshot nested in the user profile
(userSchema.profile.wellnessMetrics). -/
structure WellnessMetrics where
  sleepQuality : Rat
  energyLevel : Rat
  overallWellness : Rat
  lastUpdated : Int
deriving DecidableEq

/-- One user document (userSchema); password holds the bcrypt digest produced
by the pre-save hook. -/
structure UserAccount where
  id : Nat
  fullName : String
  email : String
  passwordHash : String
  phone : String
  userType : String
  isActive : Bool
  lastLogin : Option Int
  wellnessMetrics : WellnessMetrics
deriving DecidableEq

/-- The four Mongoose collections backing the server. -/
structure DB where
  users : List UserAccount
  progresses : List ProgressRecord
  notifications : List Notification
  sessions : List TherapySession
deriving DecidableEq

/-- Mongoose findOneAndUpdate / document save semantics: rewrite the first
element matching the predicate, leave everything else in place. -/
def updateFirst (p : α → Bool) (f : α → α) : List α → List α
  | [] => []
  | x :: xs => if p x then f x :: xs else x :: updateFirst p f xs

/-- Body of PUT /api/sessions/:id/feedback. -/
structure FeedbackBody where
  wellness : Rat
  energy : Rat
  sleep : Rat
  comments : String
deriving DecidableEq

/-- Progress formula of the feedback handler:
Math.min(100, (completedSessions / totalSessions) * 100).  JavaScript
division by zero yields Infinity, which Math.min caps at 100. -/
def recomputedProgress (completed total : Nat) : Rat :=
  if total = 0 then 100 else min 100 ((completed : Rat) / (total : Rat) * 100)

/-- Handler of PUT /api/sessions/:id/feedback (server.js 775-826).  Finds the
session by id and owner with no status guard, unconditionally marks it
completed with progress 100 and the submitted feedback, then (only when a
progress document exists for the owner) bumps completedSessions, recomputes
overallProgress and appends a wellness-history entry, and finally rewrites
the owner profile wellness metrics as each score times 10.  Returns the new
database and the HTTP status. -/
def submitFeedback (db : DB) (sessionId uid : Nat) (body : FeedbackBody)
    (now : Int) : DB × Nat :=
  match db.sessions.find? (fun s => s.id == sessionId && s.userId == uid) with
  | none => (db, 404)
  | some _ =>
    let sessions := updateFirst (fun s => s.id == sessionId && s.userId == uid)
      (fun s => { s with
        feedback := some ⟨body.wellness, body.energy, body.sleep, body.comments⟩,
        status := .completed,
        progress := 100 }) db.sessions
    let progresses :=
      match db.progresses.find? (fun r => r.userId == uid) with
      | none => db.progresses
      | some _ =>
        updateFirst (fun r => r.userId == uid)
          (fun r =>
            let c := r.completedSessions + 1
            { r with
              completedSessions := c,
              overallProgress := recomputedProgress c r.totalSessions,
              wellnessScores := r.wellnessScores ++
                [⟨now, body.wellness, body.energy, body.sleep⟩] })
          db.progresses
    let users := updateFirst (fun u => u.id == uid)
      (fun u => { u with wellnessMetrics :=
        ⟨body.sleep * 10, body.energy * 10, body.wellness * 10, now⟩ }) db.users
    ({ db with sessions := sessions, progresses := progresses, users := users }, 200)

/-- Bcrypt digest model: the pre-save hook hashes the plaintext with a salt of
12 rounds; here the digest is an injective tagging of the plaintext, which is
all comparePassword observes. -/
def hashPassword (p : String) : String := "bcrypt12$" ++ p

/-- userSchema.methods.comparePassword: bcrypt.compare of a candidate against
the stored digest. -/
def comparePassword (p digest : String) : Bool := hashPassword p == digest

/-- Empty wellness metrics snapshot (schema defaults, all 0). -/
def exMetrics : WellnessMetrics := ⟨0, 0, 0, 0⟩

/-- Sample patient account. -/
def exPatient : UserAccount :=
  { id := 1, fullName := "Pat Kumar", email := "pat@x.com",
    passwordHash := hashPassword "secret1", phone := "1234567890",
    userType := "patient", isActive := true, lastLogin := none,
    wellnessMetrics := exMetrics }

/-- Sample session of exPatient that has already been cancelled (a terminal
status of the documented state machine). -/
def exCancelled : TherapySession :=
  { id := 5, userId := 1, practitionerId := none, name := "Abhyanga Therapy",
    ttype := "abhyanga", date := 0, time := "2:00 PM", duration := 60,
    status := SessionStatus.cancelled, progress := 0, feedback := none }

/-- Database holding exPatient and the cancelled session, no progress
document. -/
def exDB1 : DB :=
  { users := [exPatient], progresses := [], notifications := [], sessions := [exCancelled] }

/-- Sample feedback body. -/
def exBody : FeedbackBody := ⟨8, 7, 9, "felt great"⟩

/-- Sample progress document of exPatient with no completed session yet. -/
def exProgress : ProgressRecord :=
  { userId := 1, overallProgress := 10, completedSessions := 0,
    totalSessions := 21, nextMilestone := "Complete initial assessment",
    wellnessScores := [] }

/-- Sample scheduled session of exPatient. -/
def exScheduled : TherapySession :=
  { id := 6, userId := 1, practitionerId := none, name := "Shirodhara",
    ttype := "shirodhara", date := 0, time := "10:00 AM", duration := 45,
    status := SessionStatus.scheduled, progress := 0, feedback := none }

/-- Database with a progress document and a scheduled session for exPatient. -/
def exDB2 : DB :=
  { users := [exPatient], progresses := [exProgress], notifications := [], sessions := [exScheduled] }

/-- Sample practitioner account. -/
def exPractitioner : UserAccount :=
  { id := 2, fullName := "Dr Rao", email := "rao@x.com",
    passwordHash := hashPassword "secret2", phone := "0987654321",
    userType := "practitioner", isActive := true, lastLogin := none,
    wellnessMetrics := exMetrics }

/-- Sample session owned by the practitioner account. -/
def exPractSession : TherapySession :=
  { id := 9, userId := 2, practitionerId := none, name := "Initial Consultation",
    ttype := "other", date := 0, time := "10:00 AM", duration := 45,
    status := SessionStatus.scheduled, progress := 0, feedback := none }

/-- Database where the practitioner owns a session but has no progress
document. -/
def exDB3 : DB :=
  { users := [exPractitioner], progresses := [], notifications := [], sessions := [exPractSession] }

theorem find?_updateFirst_of_found (p : α → Bool) (f : α → α) (l : List α)
    (a : α) (h : l.find? p = some a) (hpf : p (f a) = true) :
    (updateFirst p f l).find? p = some (f a) := by
  induction l with
  | nil => simp [List.find?] at h
  | cons x xs ih =>
    by_cases hx : p x
    · rw [List.find?_cons_of_pos _ hx] at h
      cases h
      simp [updateFirst, hx, List.find?_cons_of_pos _ hpf]
    · rw [List.find?_cons_of_neg _ (by simpa using hx)] at h
      simp [updateFirst, hx, List.find?_cons_of_neg _ (by simpa using hx),
        ih h]

theorem updateFirst_of_none (p : α → Bool) (f : α → α) (l : List α)
    (h : ∀ x ∈ l, p x = false) : updateFirst p f l = l := by
  induction l with
  | nil => rfl
  | cons x xs ih =>
    have hx := h x (by simp)
    simp [updateFirst, hx, ih (fun y hy => h y (by simp [hy]))]

/-- Claim C1 (counterexample): the feedback handler has no status guard, so a
cancelled (terminal) session is not rejected: the call returns 200 and the
session transitions to completed, contradicting the claim that feedback
submission from a terminal status is rejected and leaves the session
unchanged. -/
theorem c1_terminal_feedback_counterexample :
    exCancelled.status = SessionStatus.cancelled ∧
    (submitFeedback exDB1 5 1 exBody 0).2 = 200 ∧
    ((submitFeedback exDB1 5 1 exBody 0).1.sessions.find?
      (fun t => t.id == 5 && t.userId == 1)) =
      some { exCancelled with
        feedback := some ⟨8, 7, 9, "felt great"⟩,
        status := SessionStatus.completed, progress := 100 } := by
  refine ⟨rfl, rfl, rfl⟩

/-- Claim C1 (amended): submitFeedback by the owner succeeds from any current
status, including the terminal statuses completed and cancelled; it
unconditionally sets status to completed, progress to 100 and stores the
feedback, so a cancelled session does transition to completed.  Only a
missing or unowned session is rejected (404). -/
theorem c1_submitFeedback_ignores_terminal_status (db : DB) (sid uid : Nat)
    (s : TherapySession) (body : FeedbackBody) (now : Int)
    (hfind : db.sessions.find? (fun t => t.id == sid && t.userId == uid) = some s)
    (hterm : s.status = SessionStatus.completed ∨
      s.status = SessionStatus.cancelled) :
    (submitFeedback db sid uid body now).2 = 200 ∧
    (submitFeedback db sid uid body now).1.sessions.find?
        (fun t => t.id == sid && t.userId == uid) =
      some { s with
        feedback := some ⟨body.wellness, body.energy, body.sleep, body.comments⟩,
        status := SessionStatus.completed, progress := 100 } := by
  have hp := List.find?_some hfind
  constructor
  · simp [submitFeedback, hfind]
  · simp only [submitFeedback, hfind]
    exact find?_updateFirst_of_found _ _ _ _ hfind (by simpa using hp)

/-- Claim C1 (witness): the amended theorem applied to the concrete cancelled
session of exDB1. -/
theorem c1_submitFeedback_ignores_terminal_status_witness :
    (submitFeedback exDB1 5 1 exBody 0).2 = 200 ∧
    (submitFeedback exDB1 5 1 exBody 0).1.sessions.find?
        (fun t => t.id == 5 && t.userId == 1) =
      some { exCancelled with
        feedback := some ⟨exBody.wellness, exBody.energy, exBody.sleep, exBody.comments⟩,
        status := SessionStatus.completed, progress := 100 } :=
  c1_submitFeedback_ignores_terminal_status exDB1 5 1 exCancelled exBody 0 rfl
    (Or.inr rfl)

/-- Claim C2: when the owner holds a progress document with nonzero
totalSessions, a successful submitFeedback call increments completedSessions
by exactly 1, recomputes overallProgress as min(100, completed/total*100) by
that formula, and appends the submitted scores to the wellness history. -/
theorem c2_progress_recomputed_on_completion (db : DB) (sid uid : Nat)
    (body : FeedbackBody) (now : Int) (s : TherapySession) (r : ProgressRecord)
    (hs : db.sessions.find? (fun t => t.id == sid && t.userId == uid) = some s)
    (hr : db.progresses.find? (fun q => q.userId == uid) = some r)
    (ht : r.totalSessions ≠ 0) :
    (submitFeedback db sid uid body now).2 = 200 ∧
    (submitFeedback db sid uid body now).1.progresses.find?
        (fun q => q.userId == uid) =
      some { r with
        completedSessions := r.completedSessions + 1,
        overallProgress :=
          min 100 (((r.completedSessions + 1 : Nat) : Rat) /
            (r.totalSessions : Rat) * 100),
        wellnessScores := r.wellnessScores ++
          [⟨now, body.wellness, body.energy, body.sleep⟩] } := by
  have hq := List.find?_some hr
  constructor
  · simp [submitFeedback, hs]
  · simp only [submitFeedback, hs, hr]
    have := find?_updateFirst_of_found
      (fun q => q.userId == uid)
      (fun q =>
        let c := q.completedSessions + 1
        { q with
          completedSessions := c,
          overallProgress := recomputedProgress c q.totalSessions,
          wellnessScores := q.wellnessScores ++
            [⟨now, body.wellness, body.energy, body.sleep⟩] })
      db.progresses r hr (by simpa using hq)
    simpa [recomputedProgress, ht] using this

/-- Claim C2 (witness): the theorem applied to exDB2, whose progress document
starts at 0 completed sessions out of 21. -/
theorem c2_progress_recomputed_on_completion_witness :
    (submitFeedback exDB2 6 1 exBody 0).2 = 200 ∧
    (submitFeedback exDB2 6 1 exBody 0).1.progresses.find?
        (fun q => q.userId == 1) =
      some { exProgress with
        completedSessions := exProgress.completedSessions + 1,
        overallProgress :=
          min 100 (((exProgress.completedSessions + 1 : Nat) : Rat) /
            (exProgress.totalSessions : Rat) * 100),
        wellnessScores := exProgress.wellnessScores ++
          [⟨0, exBody.wellness, exBody.energy, exBody.sleep⟩] } :=
  c2_progress_recomputed_on_completion exDB2 6 1 exBody 0 exScheduled
    exProgress rfl rfl (by decide)

/-- Claim C10: when the owner of a matching session has no progress document
(for example a practitioner account), submitFeedback still returns 200, the
session is completed with the feedback stored, the progress collection is
untouched, and the owner profile wellness metrics are nevertheless rewritten
to each submitted score times 10. -/
theorem c10_feedback_without_progress_record (db : DB) (sid uid : Nat)
    (body : FeedbackBody) (now : Int) (s : TherapySession) (u : UserAccount)
    (hs : db.sessions.find? (fun t => t.id == sid && t.userId == uid) = some s)
    (hr : db.progresses.find? (fun q => q.userId == uid) = none)
    (hu : db.users.find? (fun v => v.id == uid) = some u) :
    (submitFeedback db sid uid body now).2 = 200 ∧
    (submitFeedback db sid uid body now).1.progresses = db.progresses ∧
    (submitFeedback db sid uid body now).1.sessions.find?
        (fun t => t.id == sid && t.userId == uid) =
      some { s with
        feedback := some ⟨body.wellness, body.energy, body.sleep, body.comments⟩,
        status := SessionStatus.completed, progress := 100 } ∧
    (submitFeedback db sid uid body now).1.users.find? (fun v => v.id == uid) =
      some { u with wellnessMetrics :=
        ⟨body.sleep * 10, body.energy * 10, body.wellness * 10, now⟩ } := by
  have hps := List.find?_some hs
  have hpu := List.find?_some hu
  refine ⟨by simp [submitFeedback, hs], ?_, ?_, ?_⟩
  · simp [submitFeedback, hs, hr]
  · simp only [submitFeedback, hs]
    exact find?_updateFirst_of_found _ _ _ _ hs (by simpa using hps)
  · simp only [submitFeedback, hs]
    exact find?_updateFirst_of_found _ _ _ _ hu (by simpa using hpu)

/-- Claim C10 (witness): the theorem applied to exDB3, where the practitioner
account owns session 9 and holds no progress document. -/
theorem c10_feedback_without_progress_record_witness :
    (submitFeedback exDB3 9 2 exBody 0).2 = 200 ∧
    (submitFeedback exDB3 9 2 exBody 0).1.progresses = exDB3.progresses ∧
    (submitFeedback exDB3 9 2 exBody 0).1.sessions.find?
        (fun t => t.id == 9 && t.userId == 2) =
      some { exPractSession with
        feedback := some ⟨exBody.wellness, exBody.energy, exBody.sleep, exBody.comments⟩,
        status := SessionStatus.completed, progress := 100 } ∧
    (submitFeedback exDB3 9 2 exBody 0).1.users.find? (fun v => v.id == 2) =
      some { exPractitioner with wellnessMetrics :=
        ⟨exBody.sleep * 10, exBody.energy * 10, exBody.wellness * 10, 0⟩ } :=
  c10_feedback_without_progress_record exDB3 9 2 exBody 0 exPractSession
    exPractitioner rfl rfl rfl

/-- Payload signed into a JWT by generateAuthToken: userId, email, userType,
plus the expiry stamped by jsonwebtoken; exp is in the same clock as the
server's now argument. -/
structure TokenPayload where
  userId : Nat
  email : String
  userType : String
  exp : Int
deriving DecidableEq

/-- Bearer token as presented to the server.  wellFormed models whether the
raw string parses as a JWT at all; sigValid models whether its signature
verifies against the process-wide secret. -/
structure BearerToken where
  payload : TokenPayload
  wellFormed : Bool
  sigValid : Bool
deriving DecidableEq

/-- Error cases in which jsonwebtoken's verify throws. -/
inductive JwtError
  | malformed
  | badSignature
  | expired
deriving DecidableEq

/-- jwt.verify(token, secret): throws on malformed structure, bad signature,
or an expiry at or before the current clock; otherwise yields the payload. -/
def jwtVerify (t : BearerToken) (now : Int) : Except JwtError TokenPayload :=
  if t.wellFormed = false then .error .malformed
  else if t.sigValid = false then .error .badSignature
  else if t.payload.exp ≤ now then .error .expired
  else .ok t.payload

/-- Outcome of the authenticateToken middleware. -/
inductive AuthOutcome
  | reject (status : Nat) (message : String)
  | grant (u : UserAccount)
deriving DecidableEq

/-- authenticateToken middleware (server.js 311-337): 401 when no bearer
token is present; any jwt.verify throw (malformed, bad signature, or expired)
lands in the catch block, which answers 403; a verified token whose account
is missing or inactive answers 401; otherwise the request proceeds as that
account. -/
def authenticateToken (db : DB) (tok : Option BearerToken) (now : Int) :
    AuthOutcome :=
  match tok with
  | none => .reject 401 "Access token required"
  | some t =>
    match jwtVerify t now with
    | .error _ => .reject 403 "Invalid or expired token"
    | .ok payload =>
      match db.users.find? (fun u => u.id == payload.userId) with
      | none => .reject 401 "Invalid token or user inactive"
      | some u =>
        if u.isActive = false then .reject 401 "Invalid token or user inactive"
        else .grant u

/-- Structurally valid, correctly signed token of exPatient whose expiry (100)
is already past at clock 1000. -/
def exExpiredTok : BearerToken :=
  { payload := ⟨1, "pat@x.com", "patient", 100⟩, wellFormed := true, sigValid := true }

/-- Claim C3 (counterexample): an expired but otherwise well-formed and
correctly signed bearer token is answered with 403, not the 401 the claim
requires for expired tokens: jwt.verify throws for expiry and the middleware
catch block cannot tell expiry apart from a signature failure. -/
theorem c3_expired_token_status_counterexample :
    exExpiredTok.wellFormed = true ∧ exExpiredTok.sigValid = true ∧
    exExpiredTok.payload.exp < 1000 ∧
    authenticateToken exDB1 (some exExpiredTok) 1000 =
      AuthOutcome.reject 403 "Invalid or expired token" := by
  refine ⟨rfl, rfl, by decide, rfl⟩

/-- Claim C3 (amended): a missing token is answered 401; every token on which
jwt.verify throws — malformed, badly signed, or expired — is answered 403 by
the shared catch block; a verified token whose account is missing or inactive
is answered 401; and access is granted only to an active account via an
unexpired, well-formed, correctly signed token, so an expired token never
grants access. -/
theorem c3_auth_status_partition (db : DB) (now : Int) :
    authenticateToken db none now = AuthOutcome.reject 401 "Access token required" ∧
    (∀ t : BearerToken,
      t.wellFormed = false ∨ t.sigValid = false ∨ t.payload.exp ≤ now →
      authenticateToken db (some t) now =
        AuthOutcome.reject 403 "Invalid or expired token") ∧
    (∀ (t : BearerToken) (u : UserAccount),
      db.users.find? (fun v => v.id == t.payload.userId) = some u →
      u.isActive = false →
      authenticateToken db (some t) now =
        AuthOutcome.reject 401 "Invalid token or user inactive" ∨
      authenticateToken db (some t) now =
        AuthOutcome.reject 403 "Invalid or expired token") ∧
    (∀ (t : BearerToken) (u : UserAccount),
      authenticateToken db (some t) now = AuthOutcome.grant u →
      t.wellFormed = true ∧ t.sigValid = true ∧ now < t.payload.exp ∧
        u.isActive = true) := by
  refine ⟨rfl, ?_, ?_, ?_⟩
  · intro t ht
    rcases ht with h | h | h
    · simp [authenticateToken, jwtVerify, h]
    · by_cases hw : t.wellFormed = false <;>
        simp [authenticateToken, jwtVerify, h, hw]
    · by_cases hw : t.wellFormed = false
      · simp [authenticateToken, jwtVerify, hw]
      · by_cases hsg : t.sigValid = false <;>
          simp [authenticateToken, jwtVerify, hw, hsg, h]
  · intro t u hu hin
    by_cases hw : t.wellFormed = false
    · right; simp [authenticateToken, jwtVerify, hw]
    · by_cases hsg : t.sigValid = false
      · right; simp [authenticateToken, jwtVerify, hw, hsg]
      · by_cases hexp : t.payload.exp ≤ now
        · right; simp [authenticateToken, jwtVerify, hw, hsg, hexp]
        · left; simp [authenticateToken, jwtVerify, hw, hsg, hexp, hu, hin]
  · intro t u hg
    by_cases hw : t.wellFormed = false
    · simp [authenticateToken, jwtVerify, hw] at hg
    · by_cases hsg : t.sigValid = false
      · simp [authenticateToken, jwtVerify, hw, hsg] at hg
      · by_cases hexp : t.payload.exp ≤ now
        · simp [authenticateToken, jwtVerify, hw, hsg, hexp] at hg
        · refine ⟨by simpa using hw, by simpa using hsg, by omega, ?_⟩
          simp only [authenticateToken, jwtVerify, hw, hsg, hexp] at hg
          simp at hg
          rcases hfind : db.users.find? (fun v => v.id == t.payload.userId) with _ | v
          · rw [hfind] at hg; simp at hg
          · rw [hfind] at hg
            by_cases hact : v.isActive = false
            · simp [hact] at hg
            · simp [hact] at hg
              simp only [Bool.not_eq_false] at hact
              rw [← hg]; exact hact

/-- Claim C3 (witness): the partition theorem applied at the concrete expired
token, concrete database and clock 1000. -/
theorem c3_auth_status_partition_witness :
    authenticateToken exDB1 (some exExpiredTok) 1000 =
      AuthOutcome.reject 403 "Invalid or expired token" :=
  (c3_auth_status_partition exDB1 1000).2.1 exExpiredTok
    (Or.inr (Or.inr (by decide)))

/-- One day in milliseconds, the unit of the seeded session dates and token
lifetimes. -/
def dayMs : Int := 86400000

/-- Token issued by jwt.sign with an expiry the given number of days from
now (generateAuthToken and the login handler). -/
def issueToken (uid : Nat) (email userType : String) (now days : Int) :
    BearerToken :=
  { payload := ⟨uid, email, userType, now + days * dayMs⟩,
    wellFormed := true, sigValid := true }

/-- Outcome of POST /api/auth/login. -/
inductive LoginOutcome
  | badRequest (message : String) (errors : List String)
  | unauthorized (message : String)
  | success (user : UserAccount) (token : BearerToken)
deriving DecidableEq

/-- JavaScript String.prototype.toLowerCase restricted to the ASCII range the
source data uses. -/
def toLowerStr (s : String) : String := String.mk (s.data.map Char.toLower)

/-- JavaScript String.prototype.trim: strip leading and trailing whitespace. -/
def trimStr (s : String) : String :=
  String.mk
    (((s.data.dropWhile Char.isWhitespace).reverse.dropWhile
      Char.isWhitespace).reverse)

/-- JavaScript String.prototype.includes for a single character. -/
def includesChar (s : String) (c : Char) : Bool := s.data.contains c

/-- Email normalization used by the login lookup and user storage:
toLowerCase then trim. -/
def normalizeEmail (e : String) : String := trimStr (toLowerStr e)

/-- validateLogin middleware (server.js 372-390): the email must include an
at sign and the password must be at least 6 characters, else field errors. -/
def validateLogin (email password : String) : List String :=
  (if includesChar email '@' = false
    then ["Please provide a valid email address"] else []) ++
  (if password.length < 6
    then ["Password must be at least 6 characters long"] else [])

/-- Login handler (server.js 559-618): finds an active account by the
normalized email; answers the one generic 401 message whether no such
account exists or the password fails bcrypt comparison; on success issues a
token with a 30-day expiry when rememberMe is set, 7 days otherwise, and
stamps lastLogin. -/
def login (db : DB) (email password : String) (rememberMe : Bool) (now : Int) :
    DB × LoginOutcome :=
  let errors := validateLogin email password
  if errors.isEmpty = false then (db, .badRequest "Validation failed" errors)
  else
    match db.users.find?
        (fun u => u.email == normalizeEmail email && u.isActive) with
    | none => (db, .unauthorized "Invalid email or password")
    | some u =>
      if comparePassword password u.passwordHash = false then
        (db, .unauthorized "Invalid email or password")
      else
        let tok := issueToken u.id u.email u.userType now
          (if rememberMe then 30 else 7)
        let users2 := updateFirst (fun v => v.id == u.id)
          (fun v => { v with lastLogin := some now }) db.users
        ({ db with users := users2 },
          .success { u with lastLogin := some now } tok)

/-- Claim C4: a login whose email matches no active account and a login whose
email matches a known active account but whose password fails verification
both produce status 401 with the identical generic message, so the response
does not distinguish the two cases. -/
theorem c4_login_error_indistinguishable (db : DB) (e1 p1 e2 p2 : String)
    (r1 r2 : Bool) (now : Int) (u : UserAccount)
    (hv1 : validateLogin e1 p1 = [])
    (hv2 : validateLogin e2 p2 = [])
    (h1 : db.users.find? (fun v => v.email == normalizeEmail e1 && v.isActive) = none)
    (h2 : db.users.find? (fun v => v.email == normalizeEmail e2 && v.isActive) = some u)
    (hpw : comparePassword p2 u.passwordHash = false) :
    (login db e1 p1 r1 now).2 = LoginOutcome.unauthorized "Invalid email or password" ∧
    (login db e2 p2 r2 now).2 = LoginOutcome.unauthorized "Invalid email or password" ∧
    (login db e1 p1 r1 now).2 = (login db e2 p2 r2 now).2 := by
  have a1 : (login db e1 p1 r1 now).2 = LoginOutcome.unauthorized "Invalid email or password" := by
    simp [login, hv1, h1]
  have a2 : (login db e2 p2 r2 now).2 = LoginOutcome.unauthorized "Invalid email or password" := by
    simp [login, hv2, h2, hpw]
  exact ⟨a1, a2, by rw [a1, a2]⟩

/-- Claim C4 (witness): against exDB1, an unknown email and the known patient
email with a wrong password both yield the identical 401 outcome. -/
theorem c4_login_error_indistinguishable_witness :
    (login exDB1 "ghost@x.com" "secret1" false 0).2 =
      LoginOutcome.unauthorized "Invalid email or password" ∧
    (login exDB1 "pat@x.com" "wrongpw" false 0).2 =
      LoginOutcome.unauthorized "Invalid email or password" ∧
    (login exDB1 "ghost@x.com" "secret1" false 0).2 =
      (login exDB1 "pat@x.com" "wrongpw" false 0).2 :=
  c4_login_error_indistinguishable exDB1 "ghost@x.com" "secret1" "pat@x.com"
    "wrongpw" false false 0 exPatient (by decide) (by decide) (by decide)
    (by decide) (by decide)

/-- JavaScript regex word character \w: ASCII letter, digit or underscore. -/
def isWordChar (c : Char) : Bool := c.isAlpha || c.isDigit || c == '_'

/-- Suffixes reachable by consuming one or more leading word characters
(the regex piece \w+). -/
def wordPlus : List Char → List (List Char)
  | [] => []
  | c :: cs => if isWordChar c then cs :: wordPlus cs else []

/-- Suffixes reachable by consuming one group of the regex piece ([.-]?\w+):
an optional dot or hyphen separator followed by one or more word chars. -/
def sepWord (l : List Char) : List (List Char) :=
  (match l with
    | c :: cs => if c == '.' || c == '-' then wordPlus cs else []
    | [] => []) ++ wordPlus l

/-- Kleene star of a step that consumes at least one character, with explicit
fuel bounded by the string length. -/
def starFuel (step : List Char → List (List Char)) : Nat → List Char → List (List Char)
  | 0, l => [l]
  | n + 1, l =>
    l :: (step l).flatMap
      (fun s => if s.length < l.length then starFuel step n s else [])

/-- Suffixes reachable by the regex piece \w+([.-]?\w+)*. -/
def atomSeq (l : List Char) : List (List Char) :=
  (wordPlus l).flatMap (fun s => starFuel sepWord s.length s)

/-- Suffixes reachable by one TLD group of the regex, \.\w{2,3}. -/
def tldGroup : List Char → List (List Char)
  | '.' :: a :: b :: rest =>
    if isWordChar a && isWordChar b then
      match rest with
      | c :: rest2 => if isWordChar c then [rest, rest2] else [rest]
      | [] => [rest]
    else []
  | _ => []

/-- Whether (\.\w{2,3})+ consumes exactly the given characters. -/
def tldPlusMatches : Nat → List Char → Bool
  | 0, _ => false
  | n + 1, l =>
    (tldGroup l).any
      (fun s => s.isEmpty || (s.length < l.length && tldPlusMatches n s))

/-- The signup email regex of userSchema and validateSignup:
caret \w+([.-]?\w+)*@\w+([.-]?\w+)*(\.\w{2,3})+ dollar. -/
def matchesEmailPattern (s : String) : Bool :=
  (atomSeq s.data).any (fun r =>
    match r with
    | '@' :: rest => (atomSeq rest).any (fun r2 => tldPlusMatches r2.length r2)
    | _ => false)

/-- Body of POST /api/auth/signup (profile and practitionerInfo extras are
not modelled; no claim depends on them). -/
structure SignupBody where
  fullName : String
  email : String
  password : String
  phone : String
  userType : Option String
deriving DecidableEq

/-- validateSignup middleware (server.js 340-370). -/
def validateSignup (b : SignupBody) : List String :=
  (if (trimStr b.fullName).length < 2
    then ["Full name must be at least 2 characters long"] else []) ++
  (if matchesEmailPattern b.email = false
    then ["Please provide a valid email address"] else []) ++
  (if b.password.length < 6
    then ["Password must be at least 6 characters long"] else []) ++
  (if (trimStr b.phone).length < 10
    then ["Please provide a valid phone number"] else []) ++
  (match b.userType with
    | none => []
    | some t =>
      if t == "patient" || t == "practitioner" then []
      else ["User type must be either patient or practitioner"])

/-- The four random draws of createInitialUserData, each a Math.floor of
Math.random() scaled: floor(random*20), and three floor(random*3). -/
structure SeedRand where
  progressDraw : Fin 20
  wellnessDraw : Fin 3
  energyDraw : Fin 3
  sleepDraw : Fin 3
deriving DecidableEq

/-- Initial progress document seeded for a patient: random overallProgress
10..29, zero completed of 21 sessions, one random wellness score entry. -/
def seedProgress (uid : Nat) (r : SeedRand) (now : Int) : ProgressRecord :=
  { userId := uid,
    overallProgress := (r.progressDraw.val : Rat) + 10,
    completedSessions := 0,
    totalSessions := 21,
    nextMilestone := "Complete initial assessment",
    wellnessScores := [⟨now, (r.wellnessDraw.val : Rat) + 7,
      (r.energyDraw.val : Rat) + 7, (r.sleepDraw.val : Rat) + 8⟩] }

/-- High-priority welcome notification seeded for a patient. -/
def patientWelcome (uid : Nat) : Notification :=
  { userId := uid, title := "Welcome to AyurSutra!",
    message := "Your Panchakarma journey begins now. We've prepared a personalized care plan for you.",
    ntype := "general", priority := "high", read := false }

/-- High-priority welcome notification seeded for a practitioner. -/
def practitionerWelcome (uid : Nat) : Notification :=
  { userId := uid, title := "Welcome, Practitioner!",
    message := "Your practitioner account is ready. You can now manage your patients' Panchakarma treatments.",
    ntype := "general", priority := "high", read := false }

/-- First seeded session: initial consultation tomorrow. -/
def seedConsultation (uid sid : Nat) (now : Int) : TherapySession :=
  { id := sid, userId := uid, practitionerId := none,
    name := "Initial Consultation", ttype := "other", date := now + dayMs,
    time := "10:00 AM", duration := 45, status := SessionStatus.scheduled,
    progress := 0, feedback := none }

/-- Second seeded session: abhyanga therapy the day after tomorrow. -/
def seedTherapy (uid sid : Nat) (now : Int) : TherapySession :=
  { id := sid, userId := uid, practitionerId := none,
    name := "Abhyanga Therapy", ttype := "abhyanga", date := now + 2 * dayMs,
    time := "2:00 PM", duration := 60, status := SessionStatus.scheduled,
    progress := 0, feedback := none }

/-- createInitialUserData (server.js 393-464): for a patient, saves a seeded
progress document, then the welcome notification, then inserts the two
sample sessions; for anyone else only a practitioner welcome notification.
The whole body sits in a try/catch whose catch only logs, so a failing store
operation (failAt names the first operation that throws, in program order)
leaves the earlier saves in place, skips the rest, and surfaces nothing. -/
def createInitialUserData (db : DB) (uid : Nat) (userType : String)
    (r : SeedRand) (now : Int) (sid1 sid2 : Nat) (failAt : Option Nat) : DB :=
  if userType == "patient" then
    if failAt == some 0 then db else
    let db1 := { db with progresses := db.progresses ++ [seedProgress uid r now] }
    if failAt == some 1 then db1 else
    let db2 := { db1 with notifications := db1.notifications ++ [patientWelcome uid] }
    if failAt == some 2 then db2 else
    { db2 with sessions := db2.sessions ++
        [seedConsultation uid sid1 now, seedTherapy uid sid2 now] }
  else
    if failAt == some 0 then db else
    { db with notifications := db.notifications ++ [practitionerWelcome uid] }

/-- Response user of the signup handler: user.toObject() with the password
field deleted. -/
structure UserResponse where
  id : Nat
  fullName : String
  email : String
  phone : String
  userType : String
  isActive : Bool
  lastLogin : Option Int
  wellnessMetrics : WellnessMetrics
deriving DecidableEq

/-- Strip the password digest from an account for the response body. -/
def toUserResponse (u : UserAccount) : UserResponse :=
  ⟨u.id, u.fullName, u.email, u.phone, u.userType, u.isActive, u.lastLogin,
    u.wellnessMetrics⟩

/-- Outcome of POST /api/auth/signup. -/
inductive SignupOutcome
  | badRequest (message : String) (errors : List String)
  | created (user : UserResponse) (token : BearerToken)
deriving DecidableEq

/-- Account document built by the signup handler before saving: trimmed
name and phone, normalized email, hashed password, userType defaulted to
patient, schema defaults elsewhere. -/
def newAccount (b : SignupBody) (newId : Nat) (now : Int) : UserAccount :=
  { id := newId, fullName := trimStr b.fullName,
    email := normalizeEmail b.email,
    passwordHash := hashPassword b.password, phone := trimStr b.phone,
    userType := b.userType.getD "patient", isActive := true,
    lastLogin := none, wellnessMetrics := ⟨0, 0, 0, now⟩ }

/-- Signup handler (server.js 474-556): validation, duplicate check on the
lowercased email, account save, createInitialUserData (whose failure is
swallowed there), token issue with a 7 day expiry, lastLogin stamp, and the
201 response of the password-stripped account plus token. -/
def signup (db : DB) (b : SignupBody) (newId sid1 sid2 : Nat) (r : SeedRand)
    (now : Int) (failAt : Option Nat) : DB × SignupOutcome :=
  let errors := validateSignup b
  if errors.isEmpty = false then (db, .badRequest "Validation failed" errors)
  else
    match db.users.find? (fun u => u.email == toLowerStr b.email) with
    | some _ => (db, .badRequest "User already exists with this email address" [])
    | none =>
      let u := newAccount b newId now
      let db1 := { db with users := db.users ++ [u] }
      let db2 := createInitialUserData db1 newId u.userType r now sid1 sid2 failAt
      let tok := issueToken newId u.email u.userType now 7
      let users2 := updateFirst (fun v => v.id == newId)
        (fun v => { v with lastLogin := some now }) db2.users
      ({ db2 with users := users2 },
        .created (toUserResponse { u with lastLogin := some now }) tok)

/-- The database with nothing in it. -/
def emptyDB : DB := ⟨[], [], [], []⟩

/-- Fixed random draws for witnesses. -/
def exRand : SeedRand := ⟨⟨5, by decide⟩, ⟨1, by decide⟩, ⟨2, by decide⟩, ⟨0, by decide⟩⟩

theorem updateFirst_append_of_none (p : α → Bool) (f : α → α) (l1 l2 : List α)
    (h : ∀ x ∈ l1, p x = false) :
    updateFirst p f (l1 ++ l2) = l1 ++ updateFirst p f l2 := by
  induction l1 with
  | nil => rfl
  | cons x xs ih =>
    have hx := h x (by simp)
    simp [updateFirst, hx, ih (fun y hy => h y (by simp [hy]))]

theorem find?_append_of_none (p : α → Bool) (l1 l2 : List α)
    (h : ∀ x ∈ l1, p x = false) :
    (l1 ++ l2).find? p = l2.find? p := by
  induction l1 with
  | nil => rfl
  | cons x xs ih =>
    have hx : ¬ p x = true := by simp [h x (by simp)]
    rw [List.cons_append, List.find?_cons_of_neg _ hx,
      ih (fun y hy => h y (by simp [hy]))]

theorem createInitialUserData_users (db : DB) (uid : Nat) (userType : String)
    (r : SeedRand) (now : Int) (sid1 sid2 : Nat) (failAt : Option Nat) :
    (createInitialUserData db uid userType r now sid1 sid2 failAt).users =
      db.users := by
  unfold createInitialUserData
  split_ifs <;> rfl

/-- Claim C5: for a fresh patient account the onboarding initializer creates
exactly one progress document — overallProgress in [10,30), zero completed
sessions, and a single initial wellness entry with wellness and energy in
7..9 and sleep in 8..10 — exactly one high-priority welcome notification,
and exactly two seeded sessions, both scheduled; for a fresh practitioner
account only a differently titled welcome notification, with no progress
document and no sessions. -/
theorem c5_onboarding_seed_shape (db : DB) (uid : Nat) (r : SeedRand)
    (now : Int) (sid1 sid2 : Nat)
    (hp : db.progresses.filter (fun q => q.userId == uid) = [])
    (hn : db.notifications.filter (fun n => n.userId == uid) = [])
    (hs : db.sessions.filter (fun s => s.userId == uid) = []) :
    ((createInitialUserData db uid "patient" r now sid1 sid2 none).progresses.filter
        (fun q => q.userId == uid) = [seedProgress uid r now] ∧
      10 ≤ (seedProgress uid r now).overallProgress ∧
      (seedProgress uid r now).overallProgress < 30 ∧
      (seedProgress uid r now).completedSessions = 0 ∧
      (∃ w, (seedProgress uid r now).wellnessScores = [w] ∧
        7 ≤ w.wellness ∧ w.wellness ≤ 9 ∧ 7 ≤ w.energy ∧ w.energy ≤ 9 ∧
        8 ≤ w.sleep ∧ w.sleep ≤ 10) ∧
      (createInitialUserData db uid "patient" r now sid1 sid2 none).notifications.filter
        (fun n => n.userId == uid) = [patientWelcome uid] ∧
      (patientWelcome uid).priority = "high" ∧
      (createInitialUserData db uid "patient" r now sid1 sid2 none).sessions.filter
        (fun s => s.userId == uid) =
        [seedConsultation uid sid1 now, seedTherapy uid sid2 now] ∧
      (seedConsultation uid sid1 now).status = SessionStatus.scheduled ∧
      (seedTherapy uid sid2 now).status = SessionStatus.scheduled) ∧
    ((createInitialUserData db uid "practitioner" r now sid1 sid2 none).progresses.filter
        (fun q => q.userId == uid) = [] ∧
      (createInitialUserData db uid "practitioner" r now sid1 sid2 none).notifications.filter
        (fun n => n.userId == uid) = [practitionerWelcome uid] ∧
      (createInitialUserData db uid "practitioner" r now sid1 sid2 none).sessions.filter
        (fun s => s.userId == uid) = [] ∧
      (practitionerWelcome uid).title ≠ (patientWelcome uid).title) := by
  have h20 : (r.progressDraw.val : Rat) < 20 := by
    exact_mod_cast r.progressDraw.isLt
  have h0 : (0 : Rat) ≤ (r.progressDraw.val : Rat) := by positivity
  have hw2 : (r.wellnessDraw.val : Rat) ≤ 2 := by
    exact_mod_cast Nat.lt_succ_iff.mp r.wellnessDraw.isLt
  have hw0 : (0 : Rat) ≤ (r.wellnessDraw.val : Rat) := by positivity
  have he2 : (r.energyDraw.val : Rat) ≤ 2 := by
    exact_mod_cast Nat.lt_succ_iff.mp r.energyDraw.isLt
  have he0 : (0 : Rat) ≤ (r.energyDraw.val : Rat) := by positivity
  have hs2 : (r.sleepDraw.val : Rat) ≤ 2 := by
    exact_mod_cast Nat.lt_succ_iff.mp r.sleepDraw.isLt
  have hs0 : (0 : Rat) ≤ (r.sleepDraw.val : Rat) := by positivity
  have hpr : ("practitioner" == "patient") = false := by decide
  refine ⟨⟨?_, ?_, ?_, rfl, ?_, ?_, rfl, ?_, rfl, rfl⟩, ⟨?_, ?_, ?_, ?_⟩⟩
  · simp [createInitialUserData, List.filter_append, hp, seedProgress]
  · simp only [seedProgress]; linarith
  · simp only [seedProgress]; linarith
  · refine ⟨_, rfl, ?_, ?_, ?_, ?_, ?_, ?_⟩ <;> simp only [seedProgress] <;> linarith
  · simp [createInitialUserData, List.filter_append, hn, patientWelcome]
  · simp [createInitialUserData, List.filter_append, hs, seedConsultation, seedTherapy]
  · simp [createInitialUserData, hpr, hp]
  · simp [createInitialUserData, hpr, List.filter_append, hn, practitionerWelcome]
  · simp [createInitialUserData, hpr, hs]
  · simp only [practitionerWelcome, patientWelcome]
    decide

/-- Claim C5 (witness): the seeding theorem applied to the empty database,
account id 7 and the fixed draws exRand. -/
theorem c5_onboarding_seed_shape_witness :
    (createInitialUserData emptyDB 7 "patient" exRand 0 1 2 none).progresses.filter
        (fun q => q.userId == 7) = [seedProgress 7 exRand 0] ∧
    (createInitialUserData emptyDB 7 "practitioner" exRand 0 1 2 none).notifications.filter
        (fun n => n.userId == 7) = [practitionerWelcome 7] :=
  ⟨(c5_onboarding_seed_shape emptyDB 7 exRand 0 1 2 rfl rfl rfl).1.1,
    (c5_onboarding_seed_shape emptyDB 7 exRand 0 1 2 rfl rfl rfl).2.2.1⟩

/-- Claim C6: whichever store operation of the onboarding initializer throws
(failAt ranges over all injection points, including none), a valid,
non-duplicate signup still answers 201 with the password-stripped account
and a 7-day token, and the account itself remains persisted: onboarding
failure neither rolls back the account nor reaches the signup response. -/
theorem c6_signup_survives_onboarding_failure (db : DB) (b : SignupBody)
    (newId sid1 sid2 : Nat) (r : SeedRand) (now : Int) (failAt : Option Nat)
    (hv : validateSignup b = [])
    (hd : db.users.find? (fun u => u.email == toLowerStr b.email) = none)
    (hfresh : ∀ u ∈ db.users, (u.id == newId) = false) :
    (signup db b newId sid1 sid2 r now failAt).2 =
      SignupOutcome.created
        (toUserResponse { newAccount b newId now with lastLogin := some now })
        (issueToken newId (newAccount b newId now).email
          (newAccount b newId now).userType now 7) ∧
    (signup db b newId sid1 sid2 r now failAt).1.users.find?
        (fun v => v.id == newId) =
      some { newAccount b newId now with lastLogin := some now } := by
  have husers :
      (createInitialUserData { db with users := db.users ++ [newAccount b newId now] }
        newId (newAccount b newId now).userType r now sid1 sid2 failAt).users =
      db.users ++ [newAccount b newId now] :=
    createInitialUserData_users _ _ _ _ _ _ _ _
  constructor
  · simp [signup, hv, hd]
  · simp only [signup, hv, List.isEmpty_nil, Bool.true_eq_false, if_false, hd]
    rw [husers, updateFirst_append_of_none _ _ _ _ hfresh,
      find?_append_of_none _ _ _ hfresh]
    simp [updateFirst, newAccount]

/-- Claim C6 (witness): the theorem applied with the store failing at the
very first onboarding operation (the progress save), on a concrete valid
signup against the empty database. -/
theorem c6_signup_survives_onboarding_failure_witness :
    (signup emptyDB ⟨"Pat Kumar", "a@x.com", "secret1", "1234567890", some "patient"⟩
        1 2 3 exRand 0 (some 0)).2 =
      SignupOutcome.created
        (toUserResponse { newAccount
          ⟨"Pat Kumar", "a@x.com", "secret1", "1234567890", some "patient"⟩ 1 0 with
          lastLogin := some 0 })
        (issueToken 1 (newAccount
          ⟨"Pat Kumar", "a@x.com", "secret1", "1234567890", some "patient"⟩ 1 0).email
          (newAccount
          ⟨"Pat Kumar", "a@x.com", "secret1", "1234567890", some "patient"⟩ 1 0).userType
          0 7) ∧
    (signup emptyDB ⟨"Pat Kumar", "a@x.com", "secret1", "1234567890", some "patient"⟩
        1 2 3 exRand 0 (some 0)).1.users.find? (fun v => v.id == 1) =
      some { newAccount
        ⟨"Pat Kumar", "a@x.com", "secret1", "1234567890", some "patient"⟩ 1 0 with
        lastLogin := some 0 } :=
  c6_signup_survives_onboarding_failure emptyDB
    ⟨"Pat Kumar", "a@x.com", "secret1", "1234567890", some "patient"⟩
    1 2 3 exRand 0 (some 0) (by decide) rfl (by simp [emptyDB])

/-- authLimiter windowMs: 15 * 60 * 1000 (server.js 21-25). -/
def authLimiterWindowMs : Nat := 15 * 60 * 1000

/-- authLimiter max requests per window per origin (server.js 21-25). -/
def authLimiterMax : Nat := 5

/-- authLimiter throttling message (server.js 21-25). -/
def authLimiterMessage : String :=
  "Too many authentication attempts, please try again later."

/-- One registered Express route: method, path, and whether authLimiter is
attached to it. -/
structure RouteEntry where
  method : String
  path : String
  rateLimited : Bool
deriving DecidableEq

/-- The app's route table in registration order (server.js 469-939):
authLimiter appears on exactly the signup and login registrations. -/
def apiRoutes : List RouteEntry :=
  [ ⟨"GET", "/api/health", false⟩,
    ⟨"POST", "/api/auth/signup", true⟩,
    ⟨"POST", "/api/auth/login", true⟩,
    ⟨"GET", "/api/auth/me", false⟩,
    ⟨"GET", "/api/dashboard", false⟩,
    ⟨"GET", "/api/notifications", false⟩,
    ⟨"PUT", "/api/notifications/:id/read", false⟩,
    ⟨"GET", "/api/sessions", false⟩,
    ⟨"POST", "/api/sessions", false⟩,
    ⟨"PUT", "/api/sessions/:id/feedback", false⟩,
    ⟨"GET", "/api/progress", false⟩,
    ⟨"PUT", "/api/auth/profile", false⟩,
    ⟨"PUT", "/api/auth/change-password", false⟩,
    ⟨"POST", "/api/auth/logout", false⟩ ]

/-- Per-origin limiter window state. -/
structure LimiterState where
  windowStart : Int
  hits : Nat
deriving DecidableEq

/-- Modelled from the spec: the express-rate-limit middleware itself is a
dependency, not repository code.  Per 4.3 it bounds attempts per origin
within a rolling window of authLimiterWindowMs, resetting on time alone:
a request first expires the window if stale, then counts itself, and is
allowed only when the window's count stays within authLimiterMax. -/
def limiterCheck (st : LimiterState) (now : Int) : LimiterState × Bool :=
  let st1 := if st.windowStart + (authLimiterWindowMs : Int) ≤ now
    then ⟨now, 0⟩ else st
  let st2 : LimiterState := ⟨st1.windowStart, st1.hits + 1⟩
  (st2, decide (st2.hits ≤ authLimiterMax))

/-- Outcome of one rate-limited authentication request: whether it was
throttled, and how many Identity Store lookups the pipeline performed. -/
structure AuthAttempt where
  throttled : Bool
  storeLookups : Nat
deriving DecidableEq

/-- One login attempt behind authLimiter: the middleware runs before the
handler, so a throttled request performs zero store lookups, while an
allowed wrong-password attempt reaches the handler's single findOne. -/
def rateLimitedLogin (st : LimiterState) (now : Int) :
    LimiterState × AuthAttempt :=
  let s := limiterCheck st now
  if s.2 then (s.1, ⟨false, 1⟩) else (s.1, ⟨true, 0⟩)

/-- Run a sequence of login attempts from the same origin, threading the
limiter state. -/
def runAuthAttempts (st : LimiterState) : List Int → LimiterState × List AuthAttempt
  | [] => (st, [])
  | t :: ts =>
    let s := rateLimitedLogin st t
    let rest := runAuthAttempts s.1 ts
    (rest.1, s.2 :: rest.2)

/-- Claim C8: the limiter is configured with windowMs 900000 and max 5; it is
attached to exactly the signup and login routes; and six attempts from one
origin inside a single window see the first five pass while the sixth is
throttled having performed no Identity Store lookup. -/
theorem c8_rate_limiter (t0 : Int) (ts : List Int)
    (hlen : ts.length = 6)
    (hwin : ∀ t ∈ ts, t0 ≤ t ∧ t < t0 + (authLimiterWindowMs : Int)) :
    authLimiterWindowMs = 900000 ∧ authLimiterMax = 5 ∧
    apiRoutes.filter (fun e => e.rateLimited) =
      [⟨"POST", "/api/auth/signup", true⟩, ⟨"POST", "/api/auth/login", true⟩] ∧
    (runAuthAttempts ⟨t0, 0⟩ ts).2.map (fun a => a.throttled) =
      [false, false, false, false, false, true] ∧
    ∀ a ∈ (runAuthAttempts ⟨t0, 0⟩ ts).2, a.throttled = true → a.storeLookups = 0 := by
  obtain ⟨a, b, c, d, e, f, rfl⟩ : ∃ a b c d e f, ts = [a, b, c, d, e, f] := by
    rcases ts with _ | ⟨a, _ | ⟨b, _ | ⟨c, _ | ⟨d, _ | ⟨e, _ | ⟨f, _ | ⟨g, rest⟩⟩⟩⟩⟩⟩⟩ <;>
      simp only [List.length_cons, List.length_nil] at hlen <;>
      first
        | omega
        | exact ⟨_, _, _, _, _, _, rfl⟩
  have ha := hwin a (by simp)
  have hb := hwin b (by simp)
  have hc := hwin c (by simp)
  have hd := hwin d (by simp)
  have he := hwin e (by simp)
  have hf := hwin f (by simp)
  have na : ¬ (t0 + (authLimiterWindowMs : Int) ≤ a) := by omega
  have nb : ¬ (t0 + (authLimiterWindowMs : Int) ≤ b) := by omega
  have nc : ¬ (t0 + (authLimiterWindowMs : Int) ≤ c) := by omega
  have nd : ¬ (t0 + (authLimiterWindowMs : Int) ≤ d) := by omega
  have ne' : ¬ (t0 + (authLimiterWindowMs : Int) ≤ e) := by omega
  have nf : ¬ (t0 + (authLimiterWindowMs : Int) ≤ f) := by omega
  have hres : (runAuthAttempts ⟨t0, 0⟩ [a, b, c, d, e, f]).2 =
      [⟨false, 1⟩, ⟨false, 1⟩, ⟨false, 1⟩, ⟨false, 1⟩, ⟨false, 1⟩, ⟨true, 0⟩] := by
    simp [runAuthAttempts, rateLimitedLogin, limiterCheck, na, nb, nc, nd,
      ne', nf, authLimiterMax]
  refine ⟨rfl, rfl, rfl, ?_, ?_⟩
  · rw [hres]; rfl
  · rw [hres]
    simp only [List.forall_mem_cons]
    exact ⟨by decide, by decide, by decide, by decide, by decide, by decide,
      fun x hx => absurd hx (List.not_mem_nil x)⟩

/-- Claim C8 (witness): six simultaneous attempts at clock 0. -/
theorem c8_rate_limiter_witness :
    (runAuthAttempts ⟨0, 0⟩ [0, 0, 0, 0, 0, 0]).2.map (fun a => a.throttled) =
      [false, false, false, false, false, true] :=
  (c8_rate_limiter 0 [0, 0, 0, 0, 0, 0] rfl
    (by intro t ht; simp at ht; subst ht; exact ⟨le_refl 0, by decide⟩)).2.2.2.1

/-- Default progress document the dashboard read creates for a patient with
no progress record (server.js 638-648): overallProgress 15 with 2 of 21
sessions completed. -/
def defaultDashboardProgress (uid : Nat) : ProgressRecord :=
  { userId := uid, overallProgress := 15, completedSessions := 2,
    totalSessions := 21, nextMilestone := "Complete detoxification phase",
    wellnessScores := [] }

/-- Handler of GET /api/dashboard (server.js 632-688) restricted to its
state effect: when the authenticated user is a patient with no progress
document, it creates and saves defaultDashboardProgress; every other
collection is only read. -/
def getDashboard (db : DB) (u : UserAccount) : DB × Nat :=
  match db.progresses.find? (fun q => q.userId == u.id) with
  | some _ => (db, 200)
  | none =>
    if u.userType == "patient" then
      ({ db with progresses := db.progresses ++ [defaultDashboardProgress u.id] },
        200)
    else (db, 200)

/-- Claim C9: for a patient with no progress document, the dashboard read
persists a new progress record with overallProgress 15 and completedSessions
2 — a state violating overallProgress = min(100, completed/total*100), since
min(100, 2/21*100) is not 15 — while users, sessions and notifications are
left unchanged. -/
theorem c9_dashboard_read_creates_progress (db : DB) (u : UserAccount)
    (hp : db.progresses.find? (fun q => q.userId == u.id) = none)
    (hpat : u.userType = "patient") :
    (getDashboard db u).1.progresses =
      db.progresses ++ [defaultDashboardProgress u.id] ∧
    (defaultDashboardProgress u.id).overallProgress = 15 ∧
    (defaultDashboardProgress u.id).completedSessions = 2 ∧
    (defaultDashboardProgress u.id).overallProgress ≠
      min 100 (((defaultDashboardProgress u.id).completedSessions : Rat) /
        ((defaultDashboardProgress u.id).totalSessions : Rat) * 100) ∧
    (getDashboard db u).1.users = db.users ∧
    (getDashboard db u).1.sessions = db.sessions ∧
    (getDashboard db u).1.notifications = db.notifications := by
  have hform : (defaultDashboardProgress u.id).overallProgress ≠
      min 100 (((defaultDashboardProgress u.id).completedSessions : Rat) /
        ((defaultDashboardProgress u.id).totalSessions : Rat) * 100) := by
    simp only [defaultDashboardProgress]
    norm_num
  refine ⟨?_, rfl, rfl, hform, ?_, ?_, ?_⟩ <;>
    simp [getDashboard, hp, hpat]

/-- Claim C9 (witness): the theorem applied to exDB1, whose patient account
holds no progress document. -/
theorem c9_dashboard_read_creates_progress_witness :
    (getDashboard exDB1 exPatient).1.progresses =
      exDB1.progresses ++ [defaultDashboardProgress exPatient.id] ∧
    (defaultDashboardProgress exPatient.id).overallProgress ≠
      min 100 (((defaultDashboardProgress exPatient.id).completedSessions : Rat) /
        ((defaultDashboardProgress exPatient.id).totalSessions : Rat) * 100) :=
  ⟨(c9_dashboard_read_creates_progress exDB1 exPatient rfl rfl).1,
    (c9_dashboard_read_creates_progress exDB1 exPatient rfl rfl).2.2.2.1⟩

/-- Client-side view of a stored JWT string: whether splitting on dots gives
exactly three parts, whether the payload part base64-decodes to JSON at all,
and the decoded exp claim (seconds) when it does. -/
structure StoredToken where
  threeParts : Bool
  decodable : Bool
  exp : Option Int
deriving DecidableEq

/-- Client session cache: the two persisted localStorage entries (token and
account snapshot) and the in-memory copies the services keep. -/
structure ClientCache where
  storageToken : Option StoredToken
  storageUser : Option String
  memToken : Option StoredToken
  memUser : Option String
deriving DecidableEq

/-- clearAuthData of both client services: remove both localStorage entries
and null the in-memory copies. -/
def clearAuthData (_ : ClientCache) : ClientCache := ⟨none, none, none, none⟩

/-- isTokenValid of the first AuthService (src/unnamed/part_001 lines
219-237): decode the payload — any failure lands in the catch which clears
the cache and returns false; a decoded exp earlier than the current clock
also clears and returns false; otherwise true. -/
def isTokenValidLegacy (c : ClientCache) (nowSec : Int) : ClientCache × Bool :=
  match c.memToken with
  | none => (c, false)
  | some t =>
    if t.decodable = false then (clearAuthData c, false)
    else
      match t.exp with
      | some e => if e < nowSec then (clearAuthData c, false) else (c, true)
      | none => (c, true)

/-- getToken of the enhanced AuthService: the in-memory token, else the
persisted one. -/
def getTokenEnhanced (c : ClientCache) : Option StoredToken :=
  match c.memToken with
  | some t => some t
  | none => c.storageToken

/-- isTokenValid of the enhanced AuthService (src/unnamed/part_001 lines
321-339): reject a token without exactly three parts or an undecodable
payload, then demand exp strictly beyond the current clock — but never
mutate the cache or storage. -/
def isTokenValidEnhanced (c : ClientCache) (nowSec : Int) :
    ClientCache × Bool :=
  match getTokenEnhanced c with
  | none => (c, false)
  | some t =>
    if t.threeParts = false then (c, false)
    else if t.decodable = false then (c, false)
    else
      match t.exp with
      | some e => (c, decide (nowSec < e))
      | none => (c, false)

/-- A structurally fine but expired stored token (exp 100, clock 1000). -/
def exExpiredStored : StoredToken := ⟨true, true, some 100⟩

/-- Cache state whose storage and memory both hold the expired token plus an
account snapshot. -/
def exClientCache : ClientCache :=
  ⟨some exExpiredStored, some "pat", some exExpiredStored, some "pat"⟩

/-- Claim C7 (counterexample): the repository ships two AuthService
implementations and the enhanced one's isTokenValid, on an expired stored
token, returns false but leaves both persisted storage entries in place,
contradicting the claim that isTokenValid clears both entries as a side
effect. -/
theorem c7_enhanced_no_clear_counterexample :
    (isTokenValidEnhanced exClientCache 1000).2 = false ∧
    (isTokenValidEnhanced exClientCache 1000).1.storageToken =
      some exExpiredStored ∧
    (isTokenValidEnhanced exClientCache 1000).1.storageUser = some "pat" := by
  refine ⟨by decide, rfl, rfl⟩

/-- Claim C7 (amended): on a stored token that is malformed (its payload does
not decode) or whose exp lies strictly in the past, both isTokenValid
implementations return false without any network call; the original
AuthService clears the whole cache — both persisted entries included — as a
side effect, while the enhanced AuthService leaves the cache untouched. -/
theorem c7_invalid_token_behaviour (c : ClientCache) (nowSec : Int)
    (t : StoredToken) (hmem : c.memToken = some t)
    (hbad : t.decodable = false ∨ ∃ e, t.exp = some e ∧ e < nowSec) :
    ((isTokenValidLegacy c nowSec).2 = false ∧
      (isTokenValidLegacy c nowSec).1 = clearAuthData c) ∧
    ((isTokenValidEnhanced c nowSec).2 = false ∧
      (isTokenValidEnhanced c nowSec).1 = c) := by
  have hget : getTokenEnhanced c = some t := by
    simp [getTokenEnhanced, hmem]
  rcases hbad with hdec | ⟨e, hexp, hlt⟩
  · constructor
    · constructor <;> simp [isTokenValidLegacy, hmem, hdec]
    · by_cases h3 : t.threeParts = false <;>
        constructor <;> simp [isTokenValidEnhanced, hget, h3, hdec]
  · constructor
    · by_cases hdec : t.decodable = false
      · constructor <;> simp [isTokenValidLegacy, hmem, hdec]
      · constructor <;> simp [isTokenValidLegacy, hmem, hdec, hexp, hlt]
    · by_cases h3 : t.threeParts = false
      · constructor <;> simp [isTokenValidEnhanced, hget, h3]
      · by_cases hdec : t.decodable = false
        · constructor <;> simp [isTokenValidEnhanced, hget, h3, hdec]
        · have hno : ¬ nowSec < e := by omega
          constructor <;>
            simp [isTokenValidEnhanced, hget, h3, hdec, hexp, hno]


/-- Claim C7 (witness): the amended behaviour at the concrete expired token,
cache and clock 2000. -/
theorem c7_invalid_token_behaviour_witness :
    ((isTokenValidLegacy exClientCache 2000).2 = false ∧
      (isTokenValidLegacy exClientCache 2000).1 = clearAuthData exClientCache) ∧
    ((isTokenValidEnhanced exClientCache 2000).2 = false ∧
      (isTokenValidEnhanced exClientCache 2000).1 = exClientCache) :=
  c7_invalid_token_behaviour exClientCache 2000 exExpiredStored rfl
    (Or.inr ⟨100, rfl, by decide⟩)

end AyurSutra
